import Mathlib

/-!
# Verification of the karakeep_client library

Shallow embedding of `src/karakeep_client/karakeep.py` and
`src/karakeep_client/models.py` (a typed Python client for the Karakeep
bookmarking API), together with proofs about the embedded definitions.

Network I/O is modelled by passing the transport as an explicit oracle
function; every operation that performs requests additionally returns the
list of requests it issued, so "no network call is made" is the statement
that this list is empty.  Python exceptions are modelled with `Except`:
a raised `ValueError`/`APIError` is an `Except.error`.
-/

namespace Karakeep

/-! ## URL regex (embedding of `URL_REGEX` + `re.match`)

`karakeep.py` compiles `URL_REGEX` with `re.IGNORECASE | re.UNICODE` and uses
`pattern.match`, i.e. the pattern must match a *prefix* of the string starting
at position 0.  We embed the concrete regular expression as a nondeterministic
matcher: a `Matcher` maps an input character list to the list of possible
remainders after matching a prefix.  Bounded repetition is used for `*`/`+`
with fuel equal to the input length, which is complete because every repeated
sub-pattern consumes at least one character per iteration. -/

/-- A nondeterministic prefix matcher: all possible remainders. -/
def Matcher : Type := List Char → List (List Char)

/-- Match a single character satisfying `p`. -/
def mChar (p : Char → Bool) : Matcher := fun s =>
  match s with
  | [] => []
  | c :: rest => if p c then [rest] else []

/-- ASCII-case-insensitive character comparison (the pattern is compiled with
`re.IGNORECASE`). -/
def charCI (a b : Char) : Bool :=
  a.toLower == b.toLower

/-- Match a literal string, case-insensitively. -/
def mStrCI (t : List Char) : Matcher := fun s =>
  match t, s with
  | [], s => [s]
  | _ :: _, [] => []
  | tc :: trest, c :: rest => if charCI tc c then mStrCI trest rest else []

/-- Sequencing of matchers. -/
def mSeq (a b : Matcher) : Matcher := fun s => (a s).flatMap b

/-- Alternation. -/
def mAlt (a b : Matcher) : Matcher := fun s => a s ++ b s

/-- `?` — optional. -/
def mOpt (a : Matcher) : Matcher := fun s => a s ++ [s]

/-- `{0,n}` — at most `n` repetitions. -/
def mRep (a : Matcher) : Nat → Matcher
  | 0 => fun s => [s]
  | n + 1 => fun s => (a s).flatMap (mRep a n) ++ [s]

/-- `+` — between 1 and `fuel + 1` repetitions. -/
def mPlus (a : Matcher) (fuel : Nat) : Matcher :=
  mSeq a (mRep a fuel)

/-- Negative lookahead on a single-character class, `(?!...)`. -/
def mLookNeg (p : Char → Bool) : Matcher := fun s =>
  match s with
  | [] => [s]
  | c :: _ => if p c then [] else [s]

/-- `\S` under `re.UNICODE`: any non-whitespace character.  (The embedding
covers the ASCII whitespace characters; the claims evaluate the pattern only
on ASCII inputs.) -/
def isNonSpace (c : Char) : Bool :=
  !(c == ' ' || c == '\t' || c == '\n' || c == '\r' ||
    c == '\x0b' || c == '\x0c')

/-- The class `[-\w¡-￿]` of the domain-label part (`\w` under
`re.UNICODE` is alphanumerics plus underscore for ASCII; non-ASCII word
characters fall in the explicit `¡-￿` range). -/
def isDomainChar (c : Char) : Bool :=
  c == '-' || c.isAlphanum || c == '_' || (0xa1 ≤ c.val && c.val ≤ 0xffff)

/-- The class `[^-_]`: any character other than `-` and `_`. -/
def isNotDashUnderscore (c : Char) : Bool :=
  !(c == '-' || c == '_')

/-- The class `[a-z¡-￿]` under `re.IGNORECASE`. -/
def isTldChar (c : Char) : Bool :=
  ('a' ≤ c && c ≤ 'z') || ('A' ≤ c && c ≤ 'Z') ||
    (0xa1 ≤ c.val && c.val ≤ 0xffff)

/-- The class `[/?#]` opening the optional path part. -/
def isPathStart (c : Char) : Bool :=
  c == '/' || c == '?' || c == '#'

/-- `(?:\S+(?::\S*)?@)?` — optional `user:pass@` part. -/
def userinfoMatcher (fuel : Nat) : Matcher :=
  mOpt (mSeq (mPlus (mChar isNonSpace) fuel)
    (mSeq (mOpt (mSeq (mChar (· == ':')) (mRep (mChar isNonSpace) fuel)))
      (mChar (· == '@'))))

/-- `[-\w¡-￿]{0,63}[^-_]\.` — one domain label followed by a dot. -/
def labelMatcher : Matcher :=
  mSeq (mRep (mChar isDomainChar) 63)
    (mSeq (mChar isNotDashUnderscore) (mChar (· == '.')))

/-- `(?:[a-z¡-￿]{2,}\.?)` — the TLD. -/
def tldMatcher (fuel : Nat) : Matcher :=
  mSeq (mChar isTldChar)
    (mSeq (mChar isTldChar)
      (mSeq (mRep (mChar isTldChar) fuel) (mOpt (mChar (· == '.')))))

/-- The whole `URL_REGEX` pattern from `karakeep.py`:
`(?:http|ftp)s?://(?:\S+(?::\S*)?@)?(?![-_])(?:[-\w¡-￿]{0,63}[^-_]\.)+(?:[a-z¡-￿]{2,}\.?)(?:[/?#]\S*)?`. -/
def urlRegexMatcher (fuel : Nat) : Matcher :=
  mSeq (mAlt (mStrCI ['h', 't', 't', 'p']) (mStrCI ['f', 't', 'p']))
    (mSeq (mOpt (mChar (charCI 's')))
      (mSeq (mStrCI [':', '/', '/'])
        (mSeq (userinfoMatcher fuel)
          (mSeq (mLookNeg fun c => c == '-' || c == '_')
            (mSeq (mPlus labelMatcher fuel)
              (mSeq (tldMatcher fuel)
                (mOpt (mSeq (mChar isPathStart)
                  (mRep (mChar isNonSpace) fuel)))))))))

/-- `pattern.match(s)` — does `URL_REGEX` match a prefix of `s`? -/
def urlRegexMatches (s : String) : Bool :=
  !(urlRegexMatcher s.length s.data).isEmpty

/-! ## Python string helpers

Python's `str.strip()` removes leading and trailing whitespace; it is used
throughout `karakeep.py` (URL trimming, tag trimming, emptiness tests).  We
implement it over the character list so that it reduces in the kernel. -/

/-- Python's whitespace test (`str.isspace` for the ASCII range; the unicode
space characters are never produced by any claim's inputs). -/
def pyIsSpace (c : Char) : Bool :=
  c == ' ' || c == '\t' || c == '\n' || c == '\r' || c == '\x0b' || c == '\x0c'

/-- Python's `str.strip()`. -/
def pyStrip (s : String) : String :=
  ⟨((s.data.dropWhile pyIsSpace).reverse.dropWhile pyIsSpace).reverse⟩

/-! ## URL normalization (embedding of pydantic's `HttpUrl`)

`validate_url` parses the URL with pydantic's `HttpUrl` (an external
dependency, not part of this repository) and re-renders it.  We model the
behaviour of that canonicalizer on URLs of the shape `scheme://host[..path]`:
the scheme and authority are lowercased and a bare authority (empty path) is
rendered with a trailing `/`.  Default-port stripping, percent-encoding
normalization and IDN encoding are not exercised by any claim and are
omitted; inputs whose authority is empty or contains whitespace fail, as
they do in the WHATWG parser underlying `HttpUrl`. -/

/-- Split a character list at the first occurrence of `://`; returns the
part before it and the part after it, or `none` if it does not occur. -/
def breakAtSchemeSep : List Char → Option (List Char × List Char)
  | [] => none
  | ':' :: '/' :: '/' :: rest => some ([], rest)
  | c :: rest =>
    (breakAtSchemeSep rest).map fun p => (c :: p.1, p.2)

/-- Canonical re-rendering performed by `HttpUrl` (see note above). -/
def normalizeHttpUrl (s : String) : Except String String :=
  match breakAtSchemeSep s.data with
  | some (scheme, remainder) =>
    let authority := remainder.takeWhile fun c => !(isPathStart c)
    let path := remainder.dropWhile fun c => !(isPathStart c)
    if authority.isEmpty then
      .error "input is missing the host"
    else if authority.any (fun c => !(isNonSpace c)) then
      .error "invalid authority"
    else
      .ok ⟨scheme.map Char.toLower ++ [':', '/', '/'] ++
        authority.map Char.toLower ++ (if path.isEmpty then ['/'] else path)⟩
  | none => .error "input is missing the scheme"

/-- Embedding of `validate_url` from `karakeep.py`: empty/whitespace input is
rejected, then the trimmed input must match `URL_REGEX`, then the URL is
normalized through `HttpUrl`.  (The source hands the *untrimmed* string to
`HttpUrl`, whose WHATWG parser itself strips surrounding spaces, so the model
normalizes the trimmed string.  The trailing `validators.url(url)` call, whose
result is discarded, accepts every URL that survived the previous two steps
and is modelled as a no-op.)  A Python `ValueError` is `Except.error`. -/
def validate_url (url : String) : Except String String :=
  if pyStrip url = "" then .error "URL cannot be empty"
  else if !urlRegexMatches (pyStrip url) then
    .error ("URL does not match expected url regex: " ++ url)
  else normalizeHttpUrl (pyStrip url)

/-! ## Data model (embedding of `models.py`)

The pydantic models are embedded as Lean structures holding the validated
values.  Fields whose wire type is `Optional[...]` become `Option` fields.
`ContentTypeLink`'s optional crawl-metadata fields (`title`, `description`,
`imageUrl`, …, all `Optional` with default `None`) are omitted from the
embedding: being optional with defaults they can never cause validation to
fail, and no claim mentions them. -/

/-- `TagShort`: `attached_by` is the validated value of the closed wire enum
`Literal["ai", "human"]`. -/
structure TagShort where
  id : String
  name : String
  attached_by : String
  deriving Repr, DecidableEq

/-- `BookmarkAsset`: `asset_type` is the validated value of the closed wire
enum of known asset kinds. -/
structure BookmarkAsset where
  id : String
  asset_type : String
  deriving Repr, DecidableEq

/-- `ContentTypeLink` (`type: Literal["link"]`): `url` is required. -/
structure ContentTypeLink where
  url : String
  deriving Repr, DecidableEq

/-- `ContentTypeText` (`type: Literal["text"]`): `text` required,
`sourceUrl` optional. -/
structure ContentTypeText where
  text : String
  source_url : Option String := none
  deriving Repr, DecidableEq

/-- `ContentTypeAsset` (`type: Literal["asset"]`): `assetType` (validated
against the closed enum `{image, pdf}`) and `assetId` required; `fileName`,
`sourceUrl`, `size`, `content` optional (the latter two omitted: no claim
touches them and they cannot affect validation success). -/
structure ContentTypeAsset where
  asset_type : String
  asset_id : String
  file_name : Option String := none
  source_url : Option String := none
  deriving Repr, DecidableEq

/-- The content union
`Union[ContentTypeLink, ContentTypeText, ContentTypeAsset, ContentTypeUnknown]`
of the `Bookmark` model. -/
inductive BookmarkContent where
  | link : ContentTypeLink → BookmarkContent
  | text : ContentTypeText → BookmarkContent
  | asset : ContentTypeAsset → BookmarkContent
  | unknown : BookmarkContent
  deriving Repr, DecidableEq

/-- The wire payload of a bookmark's `content` object, covering the
discriminator and every field that can decide validation (see the section
comment above for the omitted optional metadata).  A `none` field is an
absent key. -/
structure RawContent where
  type : Option String := none
  url : Option String := none
  text : Option String := none
  assetType : Option String := none
  assetId : Option String := none
  sourceUrl : Option String := none
  fileName : Option String := none
  deriving Repr, DecidableEq

/-- A pydantic field `type: Literal[lit] = lit` accepts an absent key (the
default applies) or exactly the literal value. -/
def literalTypeMatches (lit : String) : Option String → Bool
  | none => true
  | some t => t == lit

/-- Validation of the payload against `ContentTypeLink`. -/
def validateContentTypeLink (p : RawContent) : Option ContentTypeLink :=
  if literalTypeMatches "link" p.type then
    p.url.map fun u => { url := u }
  else none

/-- Validation of the payload against `ContentTypeText`. -/
def validateContentTypeText (p : RawContent) : Option ContentTypeText :=
  if literalTypeMatches "text" p.type then
    p.text.map fun t => { text := t, source_url := p.sourceUrl }
  else none

/-- Validation of the payload against `ContentTypeAsset`: `assetType` is the
closed enum `Literal["image", "pdf"]` and fails on any other value. -/
def validateContentTypeAsset (p : RawContent) : Option ContentTypeAsset :=
  if literalTypeMatches "asset" p.type then
    match p.assetType, p.assetId with
    | some aty, some aid =>
      if aty == "image" || aty == "pdf" then
        some { asset_type := aty, asset_id := aid,
               file_name := p.fileName, source_url := p.sourceUrl }
      else none
    | _, _ => none
  else none

/-- Validation of the payload against `ContentTypeUnknown`
(`type: Literal["unknown"]`, no other declared fields). -/
def validateContentTypeUnknown (p : RawContent) : Bool :=
  literalTypeMatches "unknown" p.type

/-- Validation of the content union: pydantic tries the members of
`Union[ContentTypeLink, ContentTypeText, ContentTypeAsset, ContentTypeUnknown]`
and takes the (leftmost) member that validates; since the `type` literals of
the members are pairwise distinct, at most one member with a matching
discriminator can succeed.  When no member validates, the bookmark fails
validation with a pydantic `ValidationError` (a schema error). -/
def validateContent (p : RawContent) : Except String BookmarkContent :=
  match validateContentTypeLink p with
  | some c => .ok (.link c)
  | none =>
    match validateContentTypeText p with
    | some c => .ok (.text c)
    | none =>
      match validateContentTypeAsset p with
      | some c => .ok (.asset c)
      | none =>
        if validateContentTypeUnknown p then .ok .unknown
        else .error "content did not match any member of the union"

/-- The validated `Bookmark` model. -/
structure Bookmark where
  id : String
  created_at : String
  modified_at : Option String
  title : Option String := none
  archived : Bool
  favourited : Bool
  tagging_status : Option String := none
  summarization_status : Option String := none
  note : Option String := none
  summary : Option String := none
  tags : List TagShort := []
  content : BookmarkContent
  assets : List BookmarkAsset := []
  deriving Repr, DecidableEq

/-- A bookmark wire payload.  The claims under verification vary only the
`content` object; the sibling fields are taken as present and well-typed
(their validation is plain pydantic field checking with no logic of this
repository), so they appear here already in validated form. -/
structure RawBookmark where
  id : String
  created_at : String
  modified_at : Option String := none
  title : Option String := none
  archived : Bool := false
  favourited : Bool := false
  tags : List TagShort := []
  content : RawContent
  assets : List BookmarkAsset := []
  deriving Repr, DecidableEq

/-- `Bookmark.model_validate`: validation of a bookmark payload.  It fails
exactly when the `content` payload matches no member of the content union
(including the closed `assetType` enum inside the `asset` member). -/
def Bookmark.model_validate (raw : RawBookmark) : Except String Bookmark :=
  (validateContent raw.content).map fun c =>
    { id := raw.id, created_at := raw.created_at,
      modified_at := raw.modified_at, title := raw.title,
      archived := raw.archived, favourited := raw.favourited,
      tags := raw.tags, content := c, assets := raw.assets }

/-- `PaginatedBookmarks`: a page of bookmarks plus the `nextCursor`
continuation token (`none` = last page). -/
structure PaginatedBookmarks where
  bookmarks : List Bookmark
  next_cursor : Option String
  deriving Repr, DecidableEq

/-! ## Transport (embedding of `KarakeepClient._call`)

The HTTP exchange itself is outside the program; what `_call` contributes is
the classification of the response.  `jsonBody` models the result of
`response.json()` — `some` rendering of the decoded body when it parses as
JSON, `none` when decoding fails; `text` models `response.text`/`content`;
`acceptBytes` is true when the caller passed the `Accept: */*` header.
httpx's `raise_for_status` raises exactly on non-2xx statuses. -/

/-- The errors `_call` can raise: `AuthenticationError` (a subclass of
`APIError`) for 401, `APIError` otherwise. -/
inductive CallError where
  | authenticationError (msg : String)
  | apiError (msg : String)
  deriving Repr, DecidableEq

/-- The success payloads `_call` can return. -/
inductive CallPayload where
  | empty
  | json (body : String)
  | raw (body : String)
  deriving Repr, DecidableEq

/-- Response classification of `_call` (lines 194-221 of `karakeep.py`):
401 → `AuthenticationError`; 204 → empty payload; other 2xx → raw bytes when
requested, else decoded JSON with raw-content fallback; any other status →
`APIError` whose message carries the status code and the decoded error body
(or the raw text when the body is not JSON). -/
def handle_response (method url : String) (status : Nat)
    (jsonBody : Option String) (text : String) (acceptBytes : Bool) :
    Except CallError CallPayload :=
  if status = 401 then
    .error (.authenticationError "Authentication failed - check API key")
  else if status = 204 then
    .ok .empty
  else if 200 ≤ status ∧ status ≤ 299 then
    if acceptBytes then .ok (.raw text)
    else
      match jsonBody with
      | some j => .ok (.json j)
      | none => .ok (.raw text)
  else
    .error (.apiError ("HTTP " ++ toString status ++ " error for " ++ method
      ++ " " ++ url ++ ": " ++ (match jsonBody with | some j => j | none => text)))

/-! ## Resource operations

Each operation is embedded as a function taking an oracle for the transport
(`_call` composed with response-model validation, both of which can fail, so
the oracle returns `Except`), and returning the operation's result *paired
with the list of requests it issued*: "no network call is made" is the
statement that this list is empty. -/

/-- The query parameters of `GET /bookmarks` built by `get_bookmarks_paged`. -/
structure ListBookmarksParams where
  archived : Option Bool
  favourited : Option Bool
  sortOrder : Option String
  limit : Option Int
  cursor : Option String
  includeContent : Bool
  deriving Repr, DecidableEq

/-- The query parameters of `GET /bookmarks/search` built by
`search_bookmarks`. -/
structure SearchParams where
  q : String
  sortOrder : Option String
  limit : Option Int
  cursor : Option String
  includeContent : Bool
  deriving Repr, DecidableEq

/-- `if limit is not None and limit > 100` — the local limit guard shared by
`get_bookmarks_paged` and `search_bookmarks`. -/
def limitExceeds100 : Option Int → Bool
  | none => false
  | some l => l > 100

/-- Embedding of `KarakeepClient.get_bookmarks_paged`: rejects `limit > 100`
locally with `ValueError("Maximum limit is 100")` before issuing any request,
otherwise issues exactly one `GET /bookmarks` request and validates the
response as `PaginatedBookmarks` (validation is part of the oracle). -/
def get_bookmarks_paged
    (call : ListBookmarksParams → Except String PaginatedBookmarks)
    (archived : Option Bool := none) (favourited : Option Bool := none)
    (sort_order : Option String := none) (limit : Option Int := none)
    (cursor : Option String := none) (include_content : Bool := false) :
    Except String PaginatedBookmarks × List ListBookmarksParams :=
  if limitExceeds100 limit then
    (.error "Maximum limit is 100", [])
  else
    let params : ListBookmarksParams :=
      ⟨archived, favourited, sort_order, limit, cursor, include_content⟩
    (call params, [params])

/-- Embedding of `KarakeepClient.search_bookmarks`: same local limit guard,
then exactly one `GET /bookmarks/search` request. -/
def search_bookmarks
    (call : SearchParams → Except String PaginatedBookmarks)
    (q : String) (sort_order : Option String := none)
    (limit : Option Int := none) (cursor : Option String := none)
    (include_content : Bool := true) :
    Except String PaginatedBookmarks × List SearchParams :=
  if limitExceeds100 limit then
    (.error "Maximum limit is 100", [])
  else
    let params : SearchParams := ⟨q, sort_order, limit, cursor, include_content⟩
    (call params, [params])

/-- Embedding of the module-level `_extract_url_from_bookmark`: dispatch on
`content.type` — `link` → `url`, `text`/`asset` → `source_url`, anything
else → `None`. -/
def _extract_url_from_bookmark (b : Bookmark) : Option String :=
  match b.content with
  | .link c => some c.url
  | .text c => c.source_url
  | .asset c => c.source_url
  | .unknown => none

/-- The `for bookmark in search_response.bookmarks` loop of
`get_bookmark_id_by_url`, searching for the first bookmark whose normalized
URL equals the normalized query URL `target`.  A `validate_url` failure on a
bookmark's URL raises out of the loop into the surrounding
`except Exception` handler, which returns `None` — so it yields `none` for
the whole scan, not a skip. -/
def findExactUrlMatch (target : String) : List Bookmark → Option String
  | [] => none
  | b :: rest =>
    match _extract_url_from_bookmark b with
    | none => findExactUrlMatch target rest
    | some u =>
      if u = "" then findExactUrlMatch target rest
      else
        match validate_url (pyStrip u) with
        | .error _ => none
        | .ok nu => if nu = target then some b.id else findExactUrlMatch target rest

/-- Embedding of `KarakeepClient.get_bookmark_id_by_url`: empty/whitespace
input returns `None` with no request; the query URL is validated (a
`ValueError` from `validate_url` propagates — this happens before the search);
then one `search_bookmarks` call with `limit=100, include_content=True` is
made inside a `try` whose `except Exception` handler turns every error from
the search or from the per-bookmark comparison into a `None` result. -/
def get_bookmark_id_by_url
    (search : SearchParams → Except String PaginatedBookmarks)
    (url : String) : Except String (Option String) × List SearchParams :=
  if pyStrip url = "" then (.ok none, [])
  else
    match validate_url (pyStrip url) with
    | .error e => (.error e, [])
    | .ok nurl =>
      let res := search_bookmarks search (pyStrip nurl) none (some 100) none true
      match res.1 with
      | .error _ => (.ok none, res.2)
      | .ok page => (.ok (findExactUrlMatch nurl page.bookmarks), res.2)

/-- Embedding of `KarakeepClient._validate_bookmark_type_args`: the local
pre-network check of `create_bookmark`'s type-specific required arguments. -/
def _validate_bookmark_type_args (bookmark_type : String)
    (url text asset_type asset_id : Option String) : Except String Unit :=
  if bookmark_type == "link" && url.isNone then
    .error "Argument 'url' is required when bookmark_type is 'link'."
  else if bookmark_type == "text" && text.isNone then
    .error "Argument 'text' is required when bookmark_type is 'text'."
  else if bookmark_type == "asset" then
    if asset_type.isNone then
      .error "Argument 'asset_type' ('image' or 'pdf') is required when bookmark_type is 'asset'."
    else if asset_id.isNone then
      .error "Argument 'asset_id' is required when bookmark_type is 'asset'."
    else .ok ()
  else .ok ()

/-- The `POST /bookmarks` request body built by
`_build_bookmark_request_body`.  A `none` field is an absent key.  (In the
source the type-specific required keys `url`/`text`/`assetType`/`assetId` are
set unconditionally inside their branch; on the `create_bookmark` path they
are always `Some` by prior validation, so representing "key present with
value None" and "key absent" both as `none` loses nothing any claim uses.) -/
structure CreateBookmarkBody where
  type : String
  title : Option String
  archived : Option Bool
  favourited : Option Bool
  note : Option String
  summary : Option String
  createdAt : Option String
  url : Option String
  precrawledArchiveId : Option String
  text : Option String
  sourceUrl : Option String
  assetType : Option String
  assetId : Option String
  fileName : Option String
  deriving Repr, DecidableEq

/-- Embedding of `KarakeepClient._build_bookmark_request_body`. -/
def _build_bookmark_request_body (bookmark_type : String)
    (title : Option String) (archived favourited : Option Bool)
    (note summary created_at : Option String)
    (url precrawled_archive_id : Option String)
    (text source_url : Option String)
    (asset_type asset_id file_name : Option String) : CreateBookmarkBody :=
  { type := bookmark_type
    title := title, archived := archived, favourited := favourited
    note := note, summary := summary, createdAt := created_at
    url := if bookmark_type == "link" then url else none
    precrawledArchiveId := if bookmark_type == "link" then precrawled_archive_id else none
    text := if bookmark_type == "text" then text else none
    sourceUrl := if bookmark_type == "text" || bookmark_type == "asset" then source_url else none
    assetType := if bookmark_type == "asset" then asset_type else none
    assetId := if bookmark_type == "asset" then asset_id else none
    fileName := if bookmark_type == "asset" then file_name else none }

/-- Embedding of `KarakeepClient.create_bookmark`: validates the
type-specific arguments locally (a `ValueError` here means no request is
issued), then builds the request body and issues exactly one
`POST /bookmarks` request; the oracle covers the transport and the
`Bookmark.model_validate` of the response. -/
def create_bookmark (call : CreateBookmarkBody → Except String Bookmark)
    (bookmark_type : String)
    (title : Option String := none) (archived : Option Bool := none)
    (favourited : Option Bool := none) (note : Option String := none)
    (summary : Option String := none) (created_at : Option String := none)
    (url : Option String := none) (precrawled_archive_id : Option String := none)
    (text : Option String := none) (source_url : Option String := none)
    (asset_type : Option String := none) (asset_id : Option String := none)
    (file_name : Option String := none) :
    Except String Bookmark × List CreateBookmarkBody :=
  match _validate_bookmark_type_args bookmark_type url text asset_type asset_id with
  | .error e => (.error e, [])
  | .ok _ =>
    let body := _build_bookmark_request_body bookmark_type title archived
      favourited note summary created_at url precrawled_archive_id text
      source_url asset_type asset_id file_name
    (call body, [body])

/-! ## Tag attach / detach -/

/-- One entry of the `tags` list in the request body of
`POST`/`DELETE /bookmarks/{id}/tags`: either a `tagId` object or a `tagName`
object. -/
inductive TagRef where
  | tagId (s : String)
  | tagName (s : String)
  deriving Repr, DecidableEq

/-- Python truthiness of an `Optional[List[str]]`: `None` and `[]` are
falsy. -/
def optListTruthy : Option (List String) → Bool
  | none => false
  | some l => !l.isEmpty

/-- The per-element loop `for i, tag in enumerate(...)` rejecting blank
entries with an indexed message (`label` is `"Tag ID"` or `"Tag name"`). -/
def checkTagElems (label : String) (l : List String) : Except String Unit :=
  match l.findIdx? (fun s => pyStrip s = "") with
  | some i => .error (label ++ " at index " ++ toString i ++ " must be a non-empty string")
  | none => .ok ()

/-- The shared body construction of `add_bookmark_tags` and
`delete_bookmark_tags` (the source duplicates this code verbatim in both
methods): require at least one of the two lists to be truthy, reject blank
elements, then emit the stripped `tagId` entries in input order followed by
the stripped `tagName` entries in input order.  (The `isinstance` checks of
the source are statically true in this typed embedding.) -/
def buildTagsBody (tag_ids tag_names : Option (List String)) :
    Except String (List TagRef) :=
  if !(optListTruthy tag_ids || optListTruthy tag_names) then
    .error "At least one of 'tag_ids' or 'tag_names' must be provided"
  else
    match (if optListTruthy tag_ids
           then checkTagElems "Tag ID" (tag_ids.getD []) else .ok ()) with
    | .error e => .error e
    | .ok _ =>
      match (if optListTruthy tag_names
             then checkTagElems "Tag name" (tag_names.getD []) else .ok ()) with
      | .error e => .error e
      | .ok _ =>
        .ok ((if optListTruthy tag_ids
              then (tag_ids.getD []).map fun s => TagRef.tagId (pyStrip s) else [])
          ++ (if optListTruthy tag_names
              then (tag_names.getD []).map fun s => TagRef.tagName (pyStrip s) else []))

/-- A tag attach/detach request: HTTP method, bookmark id, and the `tags`
list of the `{tags: [...]}` body. -/
structure TagsRequest where
  method : String
  bookmark_id : String
  tags : List TagRef
  deriving Repr, DecidableEq

/-- Embedding of `KarakeepClient.add_bookmark_tags`
(`POST /bookmarks/{id}/tags`): all argument validation happens before the
single request. -/
def add_bookmark_tags {α : Type} (call : TagsRequest → Except String α)
    (bookmark_id : String) (tag_ids : Option (List String) := none)
    (tag_names : Option (List String) := none) :
    Except String α × List TagsRequest :=
  match buildTagsBody tag_ids tag_names with
  | .error e => (.error e, [])
  | .ok tags =>
    let req : TagsRequest := ⟨"POST", bookmark_id, tags⟩
    (call req, [req])

/-- Embedding of `KarakeepClient.delete_bookmark_tags`
(`DELETE /bookmarks/{id}/tags`): identical to `add_bookmark_tags` except for
the HTTP method, as in the source. -/
def delete_bookmark_tags {α : Type} (call : TagsRequest → Except String α)
    (bookmark_id : String) (tag_ids : Option (List String) := none)
    (tag_names : Option (List String) := none) :
    Except String α × List TagsRequest :=
  match buildTagsBody tag_ids tag_names with
  | .error e => (.error e, [])
  | .ok tags =>
    let req : TagsRequest := ⟨"DELETE", bookmark_id, tags⟩
    (call req, [req])

/-! ## Bulk URL collector (embedding of the module-level `get_all_urls`)

The source loops `while True`, fetching a page per iteration; `fuel` bounds
the number of iterations the embedding unfolds (every theorem instantiates it
large enough for the run it describes).  The accumulator is a Python `set`,
modelled as a `Finset String`. -/

/-- The `for bookmark in bookmarks` body of one loop iteration of
`get_all_urls`: add each truthy (non-empty) extracted URL of the page to the
accumulated set. -/
def pageUrlsInto (page : PaginatedBookmarks) (all_urls : Finset String) :
    Finset String :=
  page.bookmarks.foldl (fun acc b =>
    match _extract_url_from_bookmark b with
    | some u => if u = "" then acc else insert u acc
    | none => acc) all_urls

/-- The `while True` loop of `get_all_urls`: fetch the next page via
`get_bookmarks_paged(cursor=next_cursor, limit=100)`; on any error (transport
or response validation) stop and return the accumulated set; otherwise add
the page's URLs and continue while `next_cursor` is truthy (`None` and `""`
are falsy). -/
def get_all_urls_loop (call : ListBookmarksParams → Except String PaginatedBookmarks) :
    Nat → Option String → Finset String → Finset String
  | 0, _, all_urls => all_urls
  | fuel + 1, next_cursor, all_urls =>
    match (get_bookmarks_paged call none none none (some 100) next_cursor false).1 with
    | .error _ => all_urls
    | .ok page =>
      let acc := pageUrlsInto page all_urls
      match page.next_cursor with
      | none => acc
      | some c => if c = "" then acc else get_all_urls_loop call fuel (some c) acc

/-- Embedding of `get_all_urls`: start with an empty set and no cursor.  (The
construction of the internal `KarakeepClient` from explicit arguments or
environment variables is configuration, not modelled; the resulting client's
transport is the `call` oracle.)  The return type not being `Except` reflects
that the loop catches every per-page exception. -/
def get_all_urls (call : ListBookmarksParams → Except String PaginatedBookmarks)
    (fuel : Nat) : Finset String :=
  get_all_urls_loop call fuel none ∅

/-! ## Vocabulary for stating the claims -/

/-- The exact request `get_all_urls` issues for a given cursor:
`get_bookmarks_paged(cursor=next_cursor, limit=100)` with every other
parameter at its default. -/
def bulkListParams (cursor : Option String) : ListBookmarksParams :=
  ⟨none, none, none, some 100, cursor, false⟩

/-- A pagination cursor value that ends the loop: `None` or `""` (Python
falsiness of `Optional[str]`). -/
def cursorFalsy (c : Option String) : Prop :=
  c = none ∨ c = some ""

/-- `PagesThenError call cursor ps`: starting from `cursor`, the transport
delivers the successful pages `ps` (each pointing to the next via a truthy
`nextCursor`) and then fails on the fetch that follows the last page of
`ps`.  This is the shape of run claim C3 quantifies over. -/
inductive PagesThenError
    (call : ListBookmarksParams → Except String PaginatedBookmarks) :
    Option String → List PaginatedBookmarks → Prop where
  | fail (cursor : Option String) (e : String)
      (h : call (bulkListParams cursor) = .error e) :
      PagesThenError call cursor []
  | cons (cursor : Option String) (page : PaginatedBookmarks) (c : String)
      (ps : List PaginatedBookmarks)
      (h : call (bulkListParams cursor) = .ok page)
      (hc : page.next_cursor = some c) (hne : c ≠ "")
      (rest : PagesThenError call (some c) ps) :
      PagesThenError call cursor (page :: ps)

/-- `PagesToEnd call cursor ps`: starting from `cursor`, the transport
delivers the successful pages `ps`, the last of which has a falsy
`nextCursor` (the normal termination of the pagination loop).  This is the
shape of run claim C4 quantifies over. -/
inductive PagesToEnd
    (call : ListBookmarksParams → Except String PaginatedBookmarks) :
    Option String → List PaginatedBookmarks → Prop where
  | last (cursor : Option String) (page : PaginatedBookmarks)
      (h : call (bulkListParams cursor) = .ok page)
      (hc : cursorFalsy page.next_cursor) :
      PagesToEnd call cursor [page]
  | cons (cursor : Option String) (page : PaginatedBookmarks) (c : String)
      (ps : List PaginatedBookmarks)
      (h : call (bulkListParams cursor) = .ok page)
      (hc : page.next_cursor = some c) (hne : c ≠ "")
      (rest : PagesToEnd call (some c) ps) :
      PagesToEnd call cursor (page :: ps)

/-- The URL a bookmark contributes to the bulk collection, stated in the
spec's words: the `url` field for `link` content, the `sourceUrl` field for
`text` and `asset` content, and nothing for other content. -/
def specContentUrl : BookmarkContent → Option String
  | .link c => some c.url
  | .text c => c.source_url
  | .asset c => c.source_url
  | .unknown => none

/-- The matching rule of the URL lookup, stated in the spec's words: a
bookmark matches the normalized query URL `target` when its extracted URL is
truthy and normalizes (by `validate_url`) exactly to `target`. -/
def bookmarkMatchesUrl (target : String) (b : Bookmark) : Bool :=
  match _extract_url_from_bookmark b with
  | none => false
  | some u =>
    if u = "" then false
    else
      match validate_url (pyStrip u) with
      | .ok nu => nu == target
      | .error _ => false

/-- The exact search request `get_bookmark_id_by_url` issues for a
normalized query URL: `q` is the stripped normalized URL, `limit=100`,
`include_content=True`. -/
def lookupSearchParams (nurl : String) : SearchParams :=
  ⟨pyStrip nurl, none, some 100, none, true⟩

/-! ## Theorems -/

/-- **C5** — `validate_url` fails for the empty string and for any input not
matching the scheme+host regex (e.g. `"not-a-url"`), and the normalized
results for `"https://example.com"` and `"https://example.com/"` compare
equal (the canonicalizer adds a trailing slash to a bare host).  A raised
`ValueError` is `Except.error`. -/
theorem validate_url_spec :
    validate_url "" = .error "URL cannot be empty"
    ∧ (∀ url : String, pyStrip url ≠ "" → urlRegexMatches (pyStrip url) = false →
        validate_url url = .error ("URL does not match expected url regex: " ++ url))
    ∧ validate_url "not-a-url"
        = .error "URL does not match expected url regex: not-a-url"
    ∧ validate_url "https://example.com" = .ok "https://example.com/"
    ∧ validate_url "https://example.com/" = .ok "https://example.com/"
    ∧ validate_url "https://example.com" = validate_url "https://example.com/" := by
  refine ⟨rfl, ?_, rfl, rfl, rfl, rfl⟩
  intro url h1 h2
  simp [validate_url, h1, h2]

/-- Witness for the quantified clause of `validate_url_spec`, at the
concrete non-URL input `"hello world"`. -/
theorem validate_url_spec_witness :
    (pyStrip "hello world" ≠ "" ∧ urlRegexMatches (pyStrip "hello world") = false)
    ∧ validate_url "hello world"
        = .error ("URL does not match expected url regex: " ++ "hello world") :=
  ⟨⟨by decide, by decide⟩,
    validate_url_spec.2.1 "hello world" (by decide) (by decide)⟩

/-- **C9** — response classification of `_call`: status 401 surfaces as
`AuthenticationError`; status 204 returns the empty success payload; any
other non-2xx status surfaces as `APIError` whose message carries the status
code (and the decoded error body, or the raw text when it is not JSON). -/
theorem handle_response_spec :
    (∀ (m u : String) (jb : Option String) (t : String) (ab : Bool),
        handle_response m u 401 jb t ab
          = .error (.authenticationError "Authentication failed - check API key"))
    ∧ (∀ (m u : String) (jb : Option String) (t : String) (ab : Bool),
        handle_response m u 204 jb t ab = .ok .empty)
    ∧ (∀ (m u : String) (status : Nat) (jb : Option String) (t : String) (ab : Bool),
        status ≠ 401 → ¬(200 ≤ status ∧ status ≤ 299) →
        handle_response m u status jb t ab
          = .error (.apiError ("HTTP " ++ toString status ++ " error for " ++ m
              ++ " " ++ u ++ ": " ++ (match jb with | some j => j | none => t)))) := by
  refine ⟨fun _ _ _ _ _ => rfl, fun _ _ _ _ _ => rfl, ?_⟩
  intro m u status jb t ab h401 h2xx
  have h204 : status ≠ 204 := by
    intro h; exact h2xx ⟨by omega, by omega⟩
  unfold handle_response
  rw [if_neg h401, if_neg h204, if_neg h2xx]

/-- Witness for `handle_response_spec`'s quantified clause at the concrete
status 404 of the claim. -/
theorem handle_response_spec_witness :
    ((404 : Nat) ≠ 401 ∧ ¬(200 ≤ (404 : Nat) ∧ (404 : Nat) ≤ 299))
    ∧ handle_response "GET" "bookmarks/xyz" 404 none "Not Found" false
        = .error (.apiError ("HTTP " ++ toString (404 : Nat) ++ " error for "
            ++ "GET" ++ " " ++ "bookmarks/xyz" ++ ": " ++ "Not Found")) :=
  ⟨⟨by decide, by decide⟩,
    handle_response_spec.2.2 "GET" "bookmarks/xyz" 404 none "Not Found" false
      (by decide) (by decide)⟩

/-- **C6** — both `get_bookmarks_paged` and `search_bookmarks` reject a
`limit` above 100 locally (`ValueError("Maximum limit is 100")`, modelled as
`Except.error`) with no request issued; a limit of 100 or less is accepted
and exactly one request is issued. -/
theorem limit_guard_spec :
    (∀ (call : ListBookmarksParams → Except String PaginatedBookmarks)
        (archived favourited : Option Bool) (so cursor : Option String)
        (l : Int) (ic : Bool), 100 < l →
        get_bookmarks_paged call archived favourited so (some l) cursor ic
          = (.error "Maximum limit is 100", []))
    ∧ (∀ (call : SearchParams → Except String PaginatedBookmarks) (q : String)
        (so cursor : Option String) (l : Int) (ic : Bool), 100 < l →
        search_bookmarks call q so (some l) cursor ic
          = (.error "Maximum limit is 100", []))
    ∧ (∀ (call : ListBookmarksParams → Except String PaginatedBookmarks)
        (archived favourited : Option Bool) (so cursor : Option String)
        (l : Int) (ic : Bool), l ≤ 100 →
        get_bookmarks_paged call archived favourited so (some l) cursor ic
          = (call ⟨archived, favourited, so, some l, cursor, ic⟩,
             [⟨archived, favourited, so, some l, cursor, ic⟩]))
    ∧ (∀ (call : SearchParams → Except String PaginatedBookmarks) (q : String)
        (so cursor : Option String) (l : Int) (ic : Bool), l ≤ 100 →
        search_bookmarks call q so (some l) cursor ic
          = (call ⟨q, so, some l, cursor, ic⟩, [⟨q, so, some l, cursor, ic⟩])) := by
  refine ⟨?_, ?_, ?_, ?_⟩
  · intro call archived favourited so cursor l ic h
    simp [get_bookmarks_paged, limitExceeds100, h]
  · intro call q so cursor l ic h
    simp [search_bookmarks, limitExceeds100, h]
  · intro call archived favourited so cursor l ic h
    simp [get_bookmarks_paged, limitExceeds100, not_lt.mpr h]
  · intro call q so cursor l ic h
    simp [search_bookmarks, limitExceeds100, not_lt.mpr h]

/-- Witness for `limit_guard_spec` at limits 101 (rejected) and 100
(accepted). -/
theorem limit_guard_spec_witness :
    ((100 : Int) < 101 ∧ (100 : Int) ≤ 100)
    ∧ get_bookmarks_paged (fun _ => .error "net") none none none (some 101) none false
        = (.error "Maximum limit is 100", [])
    ∧ search_bookmarks (fun _ => .error "net") "q" none (some 101) none true
        = (.error "Maximum limit is 100", [])
    ∧ get_bookmarks_paged (fun _ => .error "net") none none none (some 100) none false
        = ((fun (_ : ListBookmarksParams) => (.error "net" : Except String PaginatedBookmarks))
             ⟨none, none, none, some 100, none, false⟩,
           [⟨none, none, none, some 100, none, false⟩])
    ∧ search_bookmarks (fun _ => .error "net") "q" none (some 100) none true
        = ((fun (_ : SearchParams) => (.error "net" : Except String PaginatedBookmarks))
             ⟨"q", none, some 100, none, true⟩,
           [⟨"q", none, some 100, none, true⟩]) :=
  ⟨⟨by decide, by decide⟩,
    limit_guard_spec.1 (fun _ => .error "net") none none none none 101 false (by decide),
    limit_guard_spec.2.1 (fun _ => .error "net") "q" none none 101 true (by decide),
    limit_guard_spec.2.2.1 (fun _ => .error "net") none none none none 100 false (by decide),
    limit_guard_spec.2.2.2 (fun _ => .error "net") "q" none none 100 true (by decide)⟩

/-- **C7** — `create_bookmark` with a type-required field absent fails
locally before any request, with a `ValueError` message naming the missing
argument: `url` for `link`, `text` for `text`, `asset_type`/`asset_id` for
`asset`. -/
theorem create_bookmark_missing_required_spec :
    (∀ (call : CreateBookmarkBody → Except String Bookmark)
        (title : Option String) (archived favourited : Option Bool)
        (note summary created_at pai text source_url aty aid fn : Option String),
        create_bookmark call "link" title archived favourited note summary
            created_at none pai text source_url aty aid fn
          = (.error "Argument 'url' is required when bookmark_type is 'link'.", []))
    ∧ (∀ (call : CreateBookmarkBody → Except String Bookmark)
        (title : Option String) (archived favourited : Option Bool)
        (note summary created_at url pai source_url aty aid fn : Option String),
        create_bookmark call "text" title archived favourited note summary
            created_at url pai none source_url aty aid fn
          = (.error "Argument 'text' is required when bookmark_type is 'text'.", []))
    ∧ (∀ (call : CreateBookmarkBody → Except String Bookmark)
        (title : Option String) (archived favourited : Option Bool)
        (note summary created_at url pai text source_url aid fn : Option String),
        create_bookmark call "asset" title archived favourited note summary
            created_at url pai text source_url none aid fn
          = (.error "Argument 'asset_type' ('image' or 'pdf') is required when bookmark_type is 'asset'.", []))
    ∧ (∀ (call : CreateBookmarkBody → Except String Bookmark)
        (title : Option String) (archived favourited : Option Bool)
        (note summary created_at url pai text source_url fn : Option String)
        (aty : String),
        create_bookmark call "asset" title archived favourited note summary
            created_at url pai text source_url (some aty) none fn
          = (.error "Argument 'asset_id' is required when bookmark_type is 'asset'.", [])) :=
  ⟨fun _ _ _ _ _ _ _ _ _ _ _ _ _ => rfl,
   fun _ _ _ _ _ _ _ _ _ _ _ _ _ => rfl,
   fun _ _ _ _ _ _ _ _ _ _ _ _ _ => rfl,
   fun _ _ _ _ _ _ _ _ _ _ _ _ _ => rfl⟩

/-- When every element of the list is non-blank, the per-element tag check
passes. -/
theorem checkTagElems_ok (label : String) (l : List String)
    (h : ∀ s ∈ l, pyStrip s ≠ "") : checkTagElems label l = .ok () := by
  unfold checkTagElems
  have hn : l.findIdx? (fun s => pyStrip s = "") = none := by
    rw [List.findIdx?_eq_none_iff]
    intro x hx
    simp [h x hx]
  rw [hn]

/-- **C8** — for non-empty `tag_ids` and `tag_names` of non-blank strings,
tag attach and detach build the `{tags: [...]}` body with one `tagId` entry
per id followed by one `tagName` entry per name (ids before names, each
group in input order, values stripped), and issue exactly one request; when
both lists are empty or absent the operation fails locally with no
request. -/
theorem tag_body_spec :
    (∀ (α : Type) (call : TagsRequest → Except String α) (bid : String)
        (ids names : List String), ids ≠ [] → names ≠ [] →
        (∀ s ∈ ids, pyStrip s ≠ "") → (∀ s ∈ names, pyStrip s ≠ "") →
        add_bookmark_tags call bid (some ids) (some names)
          = (call ⟨"POST", bid,
               ids.map (fun s => TagRef.tagId (pyStrip s))
                 ++ names.map fun s => TagRef.tagName (pyStrip s)⟩,
             [⟨"POST", bid,
               ids.map (fun s => TagRef.tagId (pyStrip s))
                 ++ names.map fun s => TagRef.tagName (pyStrip s)⟩]))
    ∧ (∀ (α : Type) (call : TagsRequest → Except String α) (bid : String)
        (ids names : List String), ids ≠ [] → names ≠ [] →
        (∀ s ∈ ids, pyStrip s ≠ "") → (∀ s ∈ names, pyStrip s ≠ "") →
        delete_bookmark_tags call bid (some ids) (some names)
          = (call ⟨"DELETE", bid,
               ids.map (fun s => TagRef.tagId (pyStrip s))
                 ++ names.map fun s => TagRef.tagName (pyStrip s)⟩,
             [⟨"DELETE", bid,
               ids.map (fun s => TagRef.tagId (pyStrip s))
                 ++ names.map fun s => TagRef.tagName (pyStrip s)⟩]))
    ∧ (∀ (α : Type) (call : TagsRequest → Except String α) (bid : String)
        (ids names : Option (List String)),
        optListTruthy ids = false → optListTruthy names = false →
        add_bookmark_tags call bid ids names
            = (.error "At least one of 'tag_ids' or 'tag_names' must be provided", [])
          ∧ delete_bookmark_tags call bid ids names
            = (.error "At least one of 'tag_ids' or 'tag_names' must be provided", [])) := by
  have hbody : ∀ (ids names : List String), ids ≠ [] → names ≠ [] →
      (∀ s ∈ ids, pyStrip s ≠ "") → (∀ s ∈ names, pyStrip s ≠ "") →
      buildTagsBody (some ids) (some names)
        = .ok (ids.map (fun s => TagRef.tagId (pyStrip s))
            ++ names.map fun s => TagRef.tagName (pyStrip s)) := by
    intro ids names hid hname hidnb hnamenb
    have hti : optListTruthy (some ids) = true := by
      simp [optListTruthy, hid]
    have htn : optListTruthy (some names) = true := by
      simp [optListTruthy, hname]
    unfold buildTagsBody
    rw [hti, htn]
    simp [checkTagElems_ok "Tag ID" ids hidnb, checkTagElems_ok "Tag name" names hnamenb]
  refine ⟨?_, ?_, ?_⟩
  · intro α call bid ids names h1 h2 h3 h4
    unfold add_bookmark_tags
    rw [hbody ids names h1 h2 h3 h4]
  · intro α call bid ids names h1 h2 h3 h4
    unfold delete_bookmark_tags
    rw [hbody ids names h1 h2 h3 h4]
  · intro α call bid ids names h1 h2
    have : buildTagsBody ids names
        = .error "At least one of 'tag_ids' or 'tag_names' must be provided" := by
      unfold buildTagsBody
      rw [h1, h2]
      rfl
    exact ⟨by unfold add_bookmark_tags; rw [this],
           by unfold delete_bookmark_tags; rw [this]⟩

/-- Witness for `tag_body_spec`, at the spec's example
`tag_ids=["a","b"], tag_names=["x"]` and at both-absent lists. -/
theorem tag_body_spec_witness :
    (["a", "b"] ≠ ([] : List String) ∧ ["x"] ≠ ([] : List String)
      ∧ (∀ s ∈ ["a", "b"], pyStrip s ≠ "") ∧ (∀ s ∈ ["x"], pyStrip s ≠ ""))
    ∧ add_bookmark_tags (fun _ => (.ok () : Except String Unit)) "bm1"
          (some ["a", "b"]) (some ["x"])
        = ((fun (_ : TagsRequest) => (.ok () : Except String Unit))
             ⟨"POST", "bm1",
               (["a", "b"].map (fun s => TagRef.tagId (pyStrip s))
                 ++ ["x"].map fun s => TagRef.tagName (pyStrip s))⟩,
           [⟨"POST", "bm1",
               (["a", "b"].map (fun s => TagRef.tagId (pyStrip s))
                 ++ ["x"].map fun s => TagRef.tagName (pyStrip s))⟩])
    ∧ delete_bookmark_tags (fun _ => (.ok () : Except String Unit)) "bm1" none none
        = (.error "At least one of 'tag_ids' or 'tag_names' must be provided", []) :=
  ⟨⟨by decide, by decide, by decide, by decide⟩,
    tag_body_spec.1 Unit (fun _ => .ok ()) "bm1" ["a", "b"] ["x"]
      (by decide) (by decide) (by decide) (by decide),
    (tag_body_spec.2.2 Unit (fun _ => .ok ()) "bm1" none none rfl rfl).2⟩

/-- Unfolding of one iteration of the pagination loop, with the limit guard
of the inner `get_bookmarks_paged(limit=100)` call discharged. -/
theorem get_all_urls_loop_succ
    (call : ListBookmarksParams → Except String PaginatedBookmarks)
    (fuel : Nat) (cursor : Option String) (acc : Finset String) :
    get_all_urls_loop call (fuel + 1) cursor acc
      = match call (bulkListParams cursor) with
        | .error _ => acc
        | .ok page =>
          match page.next_cursor with
          | none => pageUrlsInto page acc
          | some c =>
            if c = "" then pageUrlsInto page acc
            else get_all_urls_loop call fuel (some c) (pageUrlsInto page acc) := rfl

/-- Drain lemma for a failing run: when the transport yields the pages `ps`
and then fails, the loop returns exactly the URLs accumulated from `ps`. -/
theorem get_all_urls_loop_error_chain
    {call : ListBookmarksParams → Except String PaginatedBookmarks}
    {cursor : Option String} {ps : List PaginatedBookmarks}
    (h : PagesThenError call cursor ps) :
    ∀ (fuel : Nat) (acc : Finset String), ps.length < fuel →
      get_all_urls_loop call fuel cursor acc
        = ps.foldl (fun a p => pageUrlsInto p a) acc := by
  induction h with
  | fail cursor e he =>
    intro fuel acc hf
    have h1 : 1 ≤ fuel := by simp at hf; omega
    obtain ⟨f, rfl⟩ : ∃ f, fuel = f + 1 := ⟨fuel - 1, by omega⟩
    rw [get_all_urls_loop_succ]
    simp [he]
  | cons cursor page c ps hcall hc hne rest ih =>
    intro fuel acc hf
    have h1 : 1 ≤ fuel := by simp at hf; omega
    obtain ⟨f, rfl⟩ : ∃ f, fuel = f + 1 := ⟨fuel - 1, by omega⟩
    rw [get_all_urls_loop_succ]
    simp only [hcall, hc]
    rw [if_neg hne, List.foldl_cons]
    exact ih f _ (by simp at hf ⊢; omega)

/-- Drain lemma for a normally terminating run: when the transport yields
the pages `ps`, the last of which has a falsy cursor, the loop returns the
URLs accumulated from all of `ps`. -/
theorem get_all_urls_loop_end_chain
    {call : ListBookmarksParams → Except String PaginatedBookmarks}
    {cursor : Option String} {ps : List PaginatedBookmarks}
    (h : PagesToEnd call cursor ps) :
    ∀ (fuel : Nat) (acc : Finset String), ps.length ≤ fuel →
      get_all_urls_loop call fuel cursor acc
        = ps.foldl (fun a p => pageUrlsInto p a) acc := by
  induction h with
  | last cursor page hcall hc =>
    intro fuel acc hf
    have h1 : 1 ≤ fuel := by simp at hf; omega
    obtain ⟨f, rfl⟩ : ∃ f, fuel = f + 1 := ⟨fuel - 1, by omega⟩
    rw [get_all_urls_loop_succ]
    simp only [hcall]
    rcases hc with hnone | hempty
    · simp [hnone]
    · simp [hempty]
  | cons cursor page c ps hcall hc hne rest ih =>
    intro fuel acc hf
    have h1 : 1 ≤ fuel := by simp at hf; omega
    obtain ⟨f, rfl⟩ : ∃ f, fuel = f + 1 := ⟨fuel - 1, by omega⟩
    rw [get_all_urls_loop_succ]
    simp only [hcall, hc]
    rw [if_neg hne, List.foldl_cons]
    exact ih f _ (by simp at hf ⊢; omega)

/-- Membership in the per-page URL fold. -/
theorem mem_pageUrlsInto (page : PaginatedBookmarks) (acc : Finset String)
    (u : String) :
    u ∈ pageUrlsInto page acc
      ↔ u ∈ acc ∨ ∃ b ∈ page.bookmarks,
          specContentUrl b.content = some u ∧ u ≠ "" := by
  have main : ∀ (bs : List Bookmark) (acc : Finset String),
      u ∈ bs.foldl (fun acc b =>
          match _extract_url_from_bookmark b with
          | some v => if v = "" then acc else insert v acc
          | none => acc) acc
        ↔ u ∈ acc ∨ ∃ b ∈ bs, _extract_url_from_bookmark b = some u ∧ u ≠ "" := by
    intro bs
    induction bs with
    | nil => intro acc; simp
    | cons b rest ih =>
      intro acc
      rw [List.foldl_cons, ih]
      cases hb : _extract_url_from_bookmark b with
      | none => simp [hb]
      | some v =>
        by_cases hv : v = ""
        · subst hv
          simp only [if_pos rfl, hb, List.mem_cons]
          constructor
          · rintro (h | ⟨b', hb', hu, hne⟩)
            · exact Or.inl h
            · exact Or.inr ⟨b', Or.inr hb', hu, hne⟩
          · rintro (h | ⟨b', hb' | hb', hu, hne⟩)
            · exact Or.inl h
            · subst hb'; rw [hb] at hu
              exact absurd (Option.some.inj hu) (fun hh => hne hh.symm)
            · exact Or.inr ⟨b', hb', hu, hne⟩
        · simp only [if_neg hv, hb, List.mem_cons, Finset.mem_insert]
          constructor
          · rintro ((h | h) | ⟨b', hb', hu, hne⟩)
            · exact Or.inr ⟨b, Or.inl rfl, by rw [hb, h], by rw [h]; exact hv⟩
            · exact Or.inl h
            · exact Or.inr ⟨b', Or.inr hb', hu, hne⟩
          · rintro (h | ⟨b', hb' | hb', hu, hne⟩)
            · exact Or.inl (Or.inr h)
            · subst hb'; rw [hb] at hu
              exact Or.inl (Or.inl (Option.some.inj hu).symm)
            · exact Or.inr ⟨b', hb', hu, hne⟩
  exact main page.bookmarks acc

/-- **C1 counterexample** — the claim asserts that *any* `content.type`
outside `{link, text, asset}` validates to the `unknown` variant; but for
the payload with `content.type = "video"` (and no other content fields)
validation of the bookmark fails: `ContentTypeUnknown`'s field is the
literal `"unknown"`, so no union member accepts the value `"video"`. -/
theorem bookmark_unrecognized_type_counterexample :
    Bookmark.model_validate
        { id := "b1", created_at := "2024-01-01T00:00:00Z",
          content := { type := some "video" } }
      = .error "content did not match any member of the union" := rfl

/-- **C1 (amended)** — a bookmark payload whose `content.type` is exactly
`"unknown"` validates, with the `unknown` content variant; a payload whose
`content.type` is any string outside `{link, text, asset, unknown}` fails
validation with a schema error; and a payload with `content.type = "asset"`
whose `assetType` is outside `{image, pdf}` fails validation with a schema
error. -/
theorem bookmark_content_union_spec :
    (∀ raw : RawBookmark, raw.content.type = some "unknown" →
        ∃ b : Bookmark, Bookmark.model_validate raw = .ok b ∧ b.content = .unknown)
    ∧ (∀ (raw : RawBookmark) (t : String), raw.content.type = some t →
        t ≠ "link" → t ≠ "text" → t ≠ "asset" → t ≠ "unknown" →
        Bookmark.model_validate raw
          = .error "content did not match any member of the union")
    ∧ (∀ (raw : RawBookmark) (aty : String), raw.content.type = some "asset" →
        raw.content.assetType = some aty → aty ≠ "image" → aty ≠ "pdf" →
        Bookmark.model_validate raw
          = .error "content did not match any member of the union") := by
  refine ⟨?_, ?_, ?_⟩
  · intro raw h
    simp only [Bookmark.model_validate, validateContent, validateContentTypeLink,
      validateContentTypeText, validateContentTypeAsset,
      validateContentTypeUnknown, literalTypeMatches, h]
    exact ⟨_, rfl, rfl⟩
  · intro raw t h ht1 ht2 ht3 ht4
    simp only [Bookmark.model_validate, validateContent, validateContentTypeLink,
      validateContentTypeText, validateContentTypeAsset,
      validateContentTypeUnknown, literalTypeMatches, h]
    simp [ht1, ht2, ht3, ht4]
    rfl
  · intro raw aty h ha h1 h2
    cases haid : raw.content.assetId with
    | none =>
      simp [Bookmark.model_validate, validateContent, validateContentTypeLink,
        validateContentTypeText, validateContentTypeAsset,
        validateContentTypeUnknown, literalTypeMatches, h, ha, haid]
      rfl
    | some aid =>
      simp [Bookmark.model_validate, validateContent, validateContentTypeLink,
        validateContentTypeText, validateContentTypeAsset,
        validateContentTypeUnknown, literalTypeMatches, h, ha, haid, h1, h2]
      rfl

/-- Witness for `bookmark_content_union_spec`, at the concrete payloads with
`content.type = "unknown"`, `content.type = "highlightz"`, and an `asset`
content with `assetType = "video"`. -/
theorem bookmark_content_union_spec_witness :
    (∃ b : Bookmark,
        Bookmark.model_validate
            { id := "b1", created_at := "2024-01-01T00:00:00Z",
              content := { type := some "unknown" } }
          = .ok b ∧ b.content = .unknown)
    ∧ Bookmark.model_validate
          { id := "b2", created_at := "2024-01-01T00:00:00Z",
            content := { type := some "highlightz" } }
        = .error "content did not match any member of the union"
    ∧ Bookmark.model_validate
          { id := "b3", created_at := "2024-01-01T00:00:00Z",
            content := { type := some "asset", assetType := some "video",
                         assetId := some "as1" } }
        = .error "content did not match any member of the union" :=
  ⟨bookmark_content_union_spec.1
      { id := "b1", created_at := "2024-01-01T00:00:00Z",
        content := { type := some "unknown" } } rfl,
    bookmark_content_union_spec.2.1
      { id := "b2", created_at := "2024-01-01T00:00:00Z",
        content := { type := some "highlightz" } } "highlightz" rfl
      (by decide) (by decide) (by decide) (by decide),
    bookmark_content_union_spec.2.2
      { id := "b3", created_at := "2024-01-01T00:00:00Z",
        content := { type := some "asset", assetType := some "video",
                     assetId := some "as1" } } "video" rfl rfl
      (by decide) (by decide)⟩

/-- **C3** — when the transport delivers the pages `ps` and then fails on
the next fetch (`PagesThenError`), `get_all_urls` stops at the failing page
and returns exactly the URLs accumulated from the earlier pages; the error
is not propagated (the collector's return type is a plain set, every
per-page exception being caught by the loop's handler). -/
theorem get_all_urls_partial_on_error
    (call : ListBookmarksParams → Except String PaginatedBookmarks)
    (ps : List PaginatedBookmarks) (fuel : Nat)
    (h : PagesThenError call none ps) (hf : ps.length < fuel) :
    get_all_urls call fuel = ps.foldl (fun a p => pageUrlsInto p a) ∅ :=
  get_all_urls_loop_error_chain h fuel ∅ hf

/-- Witness for `get_all_urls_partial_on_error`: one successful page with a
link bookmark, then a failing fetch; the collector returns that page's
URL set. -/
theorem get_all_urls_partial_on_error_witness :
    (PagesThenError
        (fun p => if p.cursor = none
          then .ok ⟨[⟨"id1", "2024-01-01T00:00:00Z", none, none, false, false,
                      none, none, none, none, [], .link ⟨"https://a.example/"⟩, []⟩],
                    some "c1"⟩
          else .error "network down")
        none
        [⟨[⟨"id1", "2024-01-01T00:00:00Z", none, none, false, false,
            none, none, none, none, [], .link ⟨"https://a.example/"⟩, []⟩],
          some "c1"⟩]
      ∧ ([⟨[⟨"id1", "2024-01-01T00:00:00Z", none, none, false, false,
            none, none, none, none, [], .link ⟨"https://a.example/"⟩, []⟩],
          some "c1"⟩] : List PaginatedBookmarks).length < 2)
    ∧ get_all_urls
        (fun p => if p.cursor = none
          then .ok ⟨[⟨"id1", "2024-01-01T00:00:00Z", none, none, false, false,
                      none, none, none, none, [], .link ⟨"https://a.example/"⟩, []⟩],
                    some "c1"⟩
          else .error "network down")
        2
      = ([⟨[⟨"id1", "2024-01-01T00:00:00Z", none, none, false, false,
            none, none, none, none, [], .link ⟨"https://a.example/"⟩, []⟩],
          some "c1"⟩] : List PaginatedBookmarks).foldl
          (fun a p => pageUrlsInto p a) ∅ :=
  have hchain : PagesThenError
      (fun p => if p.cursor = none
        then .ok ⟨[⟨"id1", "2024-01-01T00:00:00Z", none, none, false, false,
                    none, none, none, none, [], .link ⟨"https://a.example/"⟩, []⟩],
                  some "c1"⟩
        else .error "network down")
      none
      [⟨[⟨"id1", "2024-01-01T00:00:00Z", none, none, false, false,
          none, none, none, none, [], .link ⟨"https://a.example/"⟩, []⟩],
        some "c1"⟩] :=
    .cons none _ "c1" [] rfl rfl (by decide)
      (.fail (some "c1") "network down" rfl)
  ⟨⟨hchain, by decide⟩,
    get_all_urls_partial_on_error _ _ 2 hchain (by decide)⟩

/-- **C4** — the bulk collector follows `nextCursor` until it is falsy and
collects into a set one URL per bookmark, the URL being the `url` field for
`link` content, the `sourceUrl` field for `text`/`asset` content, and
nothing otherwise (duplicates collapse in the set); and on the claim's
two-page listing (page 1 with cursor `"c1"` and one link bookmark with URL
`A`; page 2 with null cursor and one text bookmark with `sourceUrl` `B`) it
returns `{A, B}`. -/
theorem get_all_urls_collects_spec :
    (∀ (page : PaginatedBookmarks) (acc : Finset String) (u : String),
        u ∈ pageUrlsInto page acc
          ↔ u ∈ acc ∨ ∃ b ∈ page.bookmarks,
              specContentUrl b.content = some u ∧ u ≠ "")
    ∧ (∀ (call : ListBookmarksParams → Except String PaginatedBookmarks)
        (ps : List PaginatedBookmarks) (fuel : Nat),
        PagesToEnd call none ps → ps.length ≤ fuel →
        get_all_urls call fuel = ps.foldl (fun a p => pageUrlsInto p a) ∅)
    ∧ (∀ (A B txt : String) (bA bB : Bookmark), A ≠ "" → B ≠ "" →
        bA.content = .link ⟨A⟩ → bB.content = .text ⟨txt, some B⟩ →
        get_all_urls (fun p =>
            if p.cursor = none then .ok ⟨[bA], some "c1"⟩
            else if p.cursor = some "c1" then .ok ⟨[bB], none⟩
            else .error "unreachable") 2
          = {A, B}) := by
  refine ⟨mem_pageUrlsInto, ?_, ?_⟩
  · intro call ps fuel h hf
    exact get_all_urls_loop_end_chain h fuel ∅ hf
  · intro A B txt bA bB hA hB hcA hcB
    have hchain : PagesToEnd
        (fun p =>
          if p.cursor = none then .ok ⟨[bA], some "c1"⟩
          else if p.cursor = some "c1" then .ok ⟨[bB], none⟩
          else .error "unreachable")
        none [⟨[bA], some "c1"⟩, ⟨[bB], none⟩] :=
      .cons none _ "c1" _ rfl rfl (by decide)
        (.last (some "c1") _ rfl (Or.inl rfl))
    show get_all_urls_loop _ 2 none ∅ = {A, B}
    rw [get_all_urls_loop_end_chain hchain 2 ∅ (by simp)]
    simp only [List.foldl_cons, List.foldl_nil, pageUrlsInto,
      _extract_url_from_bookmark, hcA, hcB]
    rw [if_neg hA, if_neg hB]
    exact Finset.Insert.comm B A ∅

/-- Witness for `get_all_urls_collects_spec`, at the claim's concrete
two-page listing with `A = "https://a.example/"`, `B = "https://b.example/"`. -/
theorem get_all_urls_collects_spec_witness :
    (("https://a.example/" : String) ≠ "" ∧ ("https://b.example/" : String) ≠ "")
    ∧ get_all_urls (fun p =>
          if p.cursor = none
          then .ok ⟨[⟨"idA", "2024-01-01T00:00:00Z", none, none, false, false,
                      none, none, none, none, [],
                      .link ⟨"https://a.example/"⟩, []⟩], some "c1"⟩
          else if p.cursor = some "c1"
          then .ok ⟨[⟨"idB", "2024-01-01T00:00:00Z", none, none, false, false,
                      none, none, none, none, [],
                      .text ⟨"note", some "https://b.example/"⟩, []⟩], none⟩
          else .error "unreachable") 2
        = {"https://a.example/", "https://b.example/"} :=
  ⟨⟨by decide, by decide⟩,
    get_all_urls_collects_spec.2.2 "https://a.example/" "https://b.example/"
      "note"
      ⟨"idA", "2024-01-01T00:00:00Z", none, none, false, false,
        none, none, none, none, [], .link ⟨"https://a.example/"⟩, []⟩
      ⟨"idB", "2024-01-01T00:00:00Z", none, none, false, false,
        none, none, none, none, [], .text ⟨"note", some "https://b.example/"⟩, []⟩
      (by decide) (by decide) rfl rfl⟩

/-- Unfolding of one step of the match loop of `get_bookmark_id_by_url`. -/
theorem findExactUrlMatch_cons (target : String) (b : Bookmark)
    (rest : List Bookmark) :
    findExactUrlMatch target (b :: rest)
      = match _extract_url_from_bookmark b with
        | none => findExactUrlMatch target rest
        | some u =>
          if u = "" then findExactUrlMatch target rest
          else
            match validate_url (pyStrip u) with
            | .error _ => none
            | .ok nu =>
              if nu = target then some b.id else findExactUrlMatch target rest := rfl

/-- When normalization succeeds on every truthy bookmark URL of the page,
the scan of `get_bookmark_id_by_url` returns the id of the first bookmark
matching under the normalized-equality rule (`bookmarkMatchesUrl`). -/
theorem findExactUrlMatch_eq_find (target : String) :
    ∀ bs : List Bookmark,
      (∀ b ∈ bs, ∀ u, _extract_url_from_bookmark b = some u → u ≠ "" →
        ∃ nu, validate_url (pyStrip u) = .ok nu) →
      findExactUrlMatch target bs
        = (bs.find? (bookmarkMatchesUrl target)).map Bookmark.id := by
  intro bs
  induction bs with
  | nil => intro _; rfl
  | cons b rest ih =>
    intro h
    have hrest := fun b' hb' => h b' (List.mem_cons_of_mem _ hb')
    rw [findExactUrlMatch_cons]
    cases hx : _extract_url_from_bookmark b with
    | none =>
      have hm : ¬ bookmarkMatchesUrl target b = true := by
        simp [bookmarkMatchesUrl, hx]
      rw [List.find?_cons_of_neg _ hm, ih hrest]
    | some u =>
      show (if u = "" then findExactUrlMatch target rest
          else
            match validate_url (pyStrip u) with
            | .error _ => none
            | .ok nu =>
              if nu = target then some b.id
              else findExactUrlMatch target rest)
        = (List.find? (bookmarkMatchesUrl target) (b :: rest)).map Bookmark.id
      by_cases hu : u = ""
      · rw [if_pos hu]
        have hm : ¬ bookmarkMatchesUrl target b = true := by
          simp [bookmarkMatchesUrl, hx, hu]
        rw [List.find?_cons_of_neg _ hm, ih hrest]
      · rw [if_neg hu]
        obtain ⟨nu, hnu⟩ := h b (List.mem_cons_self b rest) u hx hu
        simp only [hnu]
        by_cases ht : nu = target
        · rw [if_pos ht]
          have hm : bookmarkMatchesUrl target b = true := by
            simp [bookmarkMatchesUrl, hx, hu, hnu, ht]
          rw [List.find?_cons_of_pos _ hm]
          rfl
        · rw [if_neg ht]
          have hm : ¬ bookmarkMatchesUrl target b = true := by
            simp [bookmarkMatchesUrl, hx, hu, hnu, ht]
          rw [List.find?_cons_of_neg _ hm, ih hrest]

/-- Once the query URL has been validated to `nurl`, the lookup performs
exactly one search request (`q` = stripped `nurl`, `limit=100`,
`include_content=True`) and scans the returned page; a failing search is
swallowed into a `None` result. -/
theorem get_bookmark_id_by_url_validated
    (search : SearchParams → Except String PaginatedBookmarks)
    (url nurl : String) (h1 : pyStrip url ≠ "")
    (h2 : validate_url (pyStrip url) = .ok nurl) :
    get_bookmark_id_by_url search url
      = match search (lookupSearchParams nurl) with
        | .error _ => (.ok none, [lookupSearchParams nurl])
        | .ok page =>
          (.ok (findExactUrlMatch nurl page.bookmarks),
           [lookupSearchParams nurl]) := by
  unfold get_bookmark_id_by_url
  rw [if_neg h1, h2]
  rfl

/-- **C2 counterexample** — the claim, as stated, promises the id of the
first matching bookmark (or null only when *none* matches); but on a page
whose first bookmark has the truthy, invalid link URL `"not-a-url"` and
whose second bookmark matches the query exactly (first conjunct), the
lookup returns `None` (second conjunct): the `ValueError` raised while
comparing the first bookmark's URL lands in the surrounding
`except Exception` handler, aborting the scan. -/
theorem lookup_by_url_counterexample :
    bookmarkMatchesUrl "https://example.com/"
        ⟨"bk2", "2024-01-01T00:00:00Z", none, none, false, false, none, none,
          none, none, [], .link ⟨"https://example.com/"⟩, []⟩ = true
    ∧ get_bookmark_id_by_url
        (fun _ => .ok ⟨[⟨"bk1", "2024-01-01T00:00:00Z", none, none, false,
            false, none, none, none, none, [], .link ⟨"not-a-url"⟩, []⟩,
          ⟨"bk2", "2024-01-01T00:00:00Z", none, none, false, false, none,
            none, none, none, [], .link ⟨"https://example.com/"⟩, []⟩], none⟩)
        "https://example.com"
      = (.ok none, [lookupSearchParams "https://example.com/"]) :=
  ⟨rfl, rfl⟩

/-- **C2 (amended)** — for every search response page *whose truthy bookmark
URLs all normalize successfully*, `get_bookmark_id_by_url` issues exactly
one search call with `limit=100` and returns the id of the first bookmark
matching the query URL under normalized exact equality (or `None` when none
matches) — when some bookmark URL fails to normalize the scan instead
returns `None` (see the swallow rule of the error-path theorem); in
particular, a page containing one bookmark with link URL
`"https://example.com/"` yields that bookmark's id for the query
`"https://example.com"` (no trailing slash). -/
theorem lookup_by_url_spec :
    (∀ (page : PaginatedBookmarks) (url nurl : String),
        pyStrip url ≠ "" →
        validate_url (pyStrip url) = .ok nurl →
        (∀ b ∈ page.bookmarks, ∀ u, _extract_url_from_bookmark b = some u →
          u ≠ "" → ∃ nu, validate_url (pyStrip u) = .ok nu) →
        get_bookmark_id_by_url (fun _ => .ok page) url
          = (.ok ((page.bookmarks.find? (bookmarkMatchesUrl nurl)).map Bookmark.id),
             [lookupSearchParams nurl]))
    ∧ (∀ bk : Bookmark, bk.content = .link ⟨"https://example.com/"⟩ →
        get_bookmark_id_by_url (fun _ => .ok ⟨[bk], none⟩) "https://example.com"
          = (.ok (some bk.id), [lookupSearchParams "https://example.com/"])) := by
  constructor
  · intro page url nurl h1 h2 h3
    rw [get_bookmark_id_by_url_validated (fun _ => .ok page) url nurl h1 h2]
    show (Except.ok (findExactUrlMatch nurl page.bookmarks),
        [lookupSearchParams nurl]) = _
    rw [findExactUrlMatch_eq_find nurl page.bookmarks h3]
  · intro bk hc
    have hv : validate_url (pyStrip "https://example.com")
        = .ok "https://example.com/" := rfl
    rw [get_bookmark_id_by_url_validated (fun _ => .ok ⟨[bk], none⟩)
      "https://example.com" "https://example.com/" (by decide) hv]
    show (Except.ok (findExactUrlMatch "https://example.com/" [bk]),
        [lookupSearchParams "https://example.com/"]) = _
    rw [findExactUrlMatch_cons]
    simp only [_extract_url_from_bookmark, hc]
    rw [if_neg (by decide : ¬("https://example.com/" : String) = "")]
    have hv2 : validate_url (pyStrip "https://example.com/")
        = .ok "https://example.com/" := rfl
    simp only [hv2]
    simp

/-- Witness for `lookup_by_url_spec`, at a concrete one-bookmark page. -/
theorem lookup_by_url_spec_witness :
    (⟨"bk1", "2024-01-01T00:00:00Z", none, none, false, false, none, none,
        none, none, [], .link ⟨"https://example.com/"⟩, []⟩ : Bookmark).content
        = .link ⟨"https://example.com/"⟩
    ∧ get_bookmark_id_by_url
        (fun _ => .ok ⟨[⟨"bk1", "2024-01-01T00:00:00Z", none, none, false,
          false, none, none, none, none, [],
          .link ⟨"https://example.com/"⟩, []⟩], none⟩)
        "https://example.com"
      = (.ok (some (⟨"bk1", "2024-01-01T00:00:00Z", none, none, false, false,
            none, none, none, none, [],
            .link ⟨"https://example.com/"⟩, []⟩ : Bookmark).id),
         [lookupSearchParams "https://example.com/"]) :=
  ⟨rfl,
    lookup_by_url_spec.2
      ⟨"bk1", "2024-01-01T00:00:00Z", none, none, false, false, none, none,
        none, none, [], .link ⟨"https://example.com/"⟩, []⟩ rfl⟩

/-- **C10** — `get_bookmark_id_by_url` returns `None` with no request for
empty/whitespace input; raises the `validate_url` `ValueError` (with no
request) for a non-empty input failing validation; and once the query URL is
validated, every error — a failing search call or a `validate_url` failure
on a bookmark's URL during comparison — is swallowed, the operation
returning `None` instead of raising. -/
theorem lookup_by_url_errors_spec :
    (∀ (search : SearchParams → Except String PaginatedBookmarks)
        (url : String), pyStrip url = "" →
        get_bookmark_id_by_url search url = (.ok none, []))
    ∧ (∀ (search : SearchParams → Except String PaginatedBookmarks)
        (url e : String), pyStrip url ≠ "" →
        validate_url (pyStrip url) = .error e →
        get_bookmark_id_by_url search url = (.error e, []))
    ∧ (∀ (search : SearchParams → Except String PaginatedBookmarks)
        (url nurl e : String), pyStrip url ≠ "" →
        validate_url (pyStrip url) = .ok nurl →
        search (lookupSearchParams nurl) = .error e →
        get_bookmark_id_by_url search url = (.ok none, [lookupSearchParams nurl]))
    ∧ (∀ (search : SearchParams → Except String PaginatedBookmarks)
        (url nurl : String), pyStrip url ≠ "" →
        validate_url (pyStrip url) = .ok nurl →
        ∃ r, (get_bookmark_id_by_url search url).1 = .ok r)
    ∧ (∀ (search : SearchParams → Except String PaginatedBookmarks)
        (url nurl : String) (page : PaginatedBookmarks) (b : Bookmark)
        (rest : List Bookmark) (u e : String), pyStrip url ≠ "" →
        validate_url (pyStrip url) = .ok nurl →
        search (lookupSearchParams nurl) = .ok page →
        page.bookmarks = b :: rest →
        _extract_url_from_bookmark b = some u → u ≠ "" →
        validate_url (pyStrip u) = .error e →
        get_bookmark_id_by_url search url
          = (.ok none, [lookupSearchParams nurl])) := by
  refine ⟨?_, ?_, ?_, ?_, ?_⟩
  · intro search url h
    unfold get_bookmark_id_by_url
    rw [if_pos h]
  · intro search url e h1 h2
    unfold get_bookmark_id_by_url
    rw [if_neg h1, h2]
  · intro search url nurl e h1 h2 h3
    rw [get_bookmark_id_by_url_validated search url nurl h1 h2, h3]
  · intro search url nurl h1 h2
    rw [get_bookmark_id_by_url_validated search url nurl h1 h2]
    cases hs : search (lookupSearchParams nurl) with
    | error e => exact ⟨none, by simp [hs]⟩
    | ok page => exact ⟨findExactUrlMatch nurl page.bookmarks, by simp [hs]⟩
  · intro search url nurl page b rest u e h1 h2 h3 hlist hx hu hverr
    rw [get_bookmark_id_by_url_validated search url nurl h1 h2, h3]
    simp only [hlist, findExactUrlMatch_cons, hx]
    rw [if_neg hu]
    simp only [hverr]

/-- Witness for `lookup_by_url_errors_spec`: whitespace input, the invalid
input `"not-a-url"`, and a query whose search call fails. -/
theorem lookup_by_url_errors_spec_witness :
    (pyStrip "   " = "" ∧ pyStrip "not-a-url" ≠ ""
      ∧ validate_url (pyStrip "not-a-url")
          = .error "URL does not match expected url regex: not-a-url"
      ∧ validate_url (pyStrip "https://example.com") = .ok "https://example.com/")
    ∧ get_bookmark_id_by_url (fun _ => .error "boom") "   " = (.ok none, [])
    ∧ get_bookmark_id_by_url (fun _ => .error "boom") "not-a-url"
        = (.error "URL does not match expected url regex: not-a-url", [])
    ∧ get_bookmark_id_by_url (fun _ => .error "boom") "https://example.com"
        = (.ok none, [lookupSearchParams "https://example.com/"]) :=
  ⟨⟨by decide, by decide, rfl, rfl⟩,
    lookup_by_url_errors_spec.1 (fun _ => .error "boom") "   " (by decide),
    lookup_by_url_errors_spec.2.1 (fun _ => .error "boom") "not-a-url"
      "URL does not match expected url regex: not-a-url" (by decide) rfl,
    lookup_by_url_errors_spec.2.2.1 (fun _ => .error "boom")
      "https://example.com" "https://example.com/" "boom" (by decide) rfl rfl⟩

end Karakeep
